import Mathlib

/-!
Shallow embedding of the ticket-inactivity bot (canonical MongoDB-backed
implementation). The model captures the durable ticket records, the
in-memory `timers` map of handle ids, the set of live scheduled callbacks
(timeouts and intervals), and the log of sent reminder / staff-alert
messages. Times are absolute milliseconds as natural numbers.
-/

namespace TicketBot

/-- Fixed pre-delay before the countdown becomes active (10 minutes, ms). -/
def START_DELAY : Nat := 10 * 60 * 1000

/-- Fixed period between reminders once active (6 hours, ms). -/
def REMINDER_INTERVAL : Nat := 6 * 60 * 60 * 1000

/-- Fixed offset from activation at which staff are alerted (24 hours, ms). -/
def STAFF_ALERT_TIME : Nat := 24 * 60 * 60 * 1000

/-- Configured user id of the designated intake (ticket-tool) bot. The
concrete value is an environment constant; any fixed value serves. -/
def TICKET_TOOL_BOT_ID : Nat := 999

/-- Durable ticket record, one per tracked channel (the mongoose document). -/
structure Ticket where
  channelId : Nat
  creatorId : Nat
  timerStartTime : Option Nat
  reminderCount : Nat
deriving Repr, DecidableEq

/-- Kind of a live scheduled callback. `pendingStart` is the 10-minute
one-shot, `reminderRepeat` the 6-hour interval, `recoveryReminder` the
anonymous one-shot armed during startup recovery, `staffAlert` the 24-hour
one-shot. -/
inductive TaskKind
  | pendingStart
  | reminderRepeat
  | recoveryReminder
  | staffAlert
deriving Repr, DecidableEq

/-- A live scheduled callback: handle id, channel, kind, absolute fire time. -/
structure Task where
  tid : Nat
  chan : Nat
  kind : TaskKind
  fireAt : Nat
deriving Repr, DecidableEq

/-- The per-channel object stored in the in-memory `timers` map: the handle
ids recorded under its `start`, `repeat` and `staff` fields. -/
structure TimerObj where
  start : Option Nat
  rep : Option Nat
  staff : Option Nat
deriving Repr, DecidableEq

/-- Kind of an outbound message recorded in the send log. -/
inductive SentKind
  | reminder (n : Nat) (final : Bool)
  | alert
deriving Repr, DecidableEq

/-- An outbound reminder or staff-alert message. -/
structure Sent where
  chan : Nat
  kind : SentKind
  time : Nat
deriving Repr, DecidableEq

/-- Whole-system state: durable records, the `timers` map, the live
scheduled callbacks, the next fresh handle id, and the send log. -/
structure BotState where
  tickets : List Ticket
  timers : List (Nat × TimerObj)
  tasks : List Task
  nextTid : Nat
  sent : List Sent
deriving Repr, DecidableEq

/-- Lookup of `Ticket.findOne({ channelId })`. -/
def findTicket (db : List Ticket) (cid : Nat) : Option Ticket :=
  db.find? (fun u => u.channelId == cid)

/-- Effect of `ticket.save()`: replace the stored document with the same
`channelId` (the store enforces uniqueness of `channelId`). -/
def saveTicket (db : List Ticket) (tk : Ticket) : List Ticket :=
  db.map (fun u => if u.channelId == tk.channelId then tk else u)

/-- Lookup in the in-memory `timers` map. -/
def lookupTimer (ts : List (Nat × TimerObj)) (cid : Nat) : Option TimerObj :=
  (ts.find? (fun p => p.1 == cid)).map (fun p => p.2)

/-- Removal of a channel's entry from the `timers` map. -/
def eraseTimer (ts : List (Nat × TimerObj)) (cid : Nat) : List (Nat × TimerObj) :=
  ts.filter (fun p => p.1 != cid)

/-- `timers.set(channelId, timer)`. -/
def setTimer (ts : List (Nat × TimerObj)) (cid : Nat) (o : TimerObj) :
    List (Nat × TimerObj) :=
  (cid, o) :: eraseTimer ts cid

/-- Whether a handle id is one of the ids recorded in a timer object. -/
def inObj (tm : TimerObj) (tid : Nat) : Bool :=
  tm.start == some tid || tm.rep == some tid || tm.staff == some tid

/-- Whether a handle id is registered for a channel in the `timers` map. -/
def registered (s : BotState) (cid : Nat) (tid : Nat) : Bool :=
  match lookupTimer s.timers cid with
  | none => false
  | some tm => inObj tm tid

/-- Source `clearAllTimers(channelId)`: if the map has an entry, call
`clearTimeout` / `clearInterval` on each recorded handle and delete the
entry. Callbacks whose handle was never recorded in the map are untouched. -/
def clearAllTimers (s : BotState) (cid : Nat) : BotState :=
  match lookupTimer s.timers cid with
  | none => s
  | some tm =>
      { s with
        tasks := s.tasks.filter (fun t => !(inObj tm t.tid)),
        timers := eraseTimer s.timers cid }

/-- Source `sendReminder(channel)`: re-fetch the record; if absent do
nothing, else increment `reminderCount`, save, and send the reminder embed
(the third reminder is rendered as the final-warning variant). -/
def sendReminder (s : BotState) (cid : Nat) (now : Nat) : BotState :=
  match findTicket s.tickets cid with
  | none => s
  | some tk =>
      let tk2 := { tk with reminderCount := tk.reminderCount + 1 }
      { s with
        tickets := saveTicket s.tickets tk2,
        sent := s.sent ++ [⟨cid, .reminder tk2.reminderCount (tk2.reminderCount == 3), now⟩] }

/-- Source `sendStaffAlert(channel)`: send the 24-hour alert embed. The
record is read only for display and is never modified. -/
def sendStaffAlert (s : BotState) (cid : Nat) (now : Nat) : BotState :=
  { s with sent := s.sent ++ [⟨cid, .alert, now⟩] }

/-- Source `startTimers(channel)`: bail out if no record exists, clear any
existing timers, then arm the 10-minute `pendingStart` one-shot and store
its handle in the `timers` map. -/
def startTimers (s : BotState) (cid : Nat) (now : Nat) : BotState :=
  match findTicket s.tickets cid with
  | none => s
  | some _ =>
      let s1 := clearAllTimers s cid
      let tid := s1.nextTid
      { s1 with
        tasks := s1.tasks ++ [⟨tid, cid, .pendingStart, now + START_DELAY⟩],
        nextTid := tid + 1,
        timers := setTimer s1.timers cid ⟨some tid, none, none⟩ }

/-- Firing of one due scheduled callback, at its scheduled time.
`pendingStart`: set `timerStartTime` to now, reset the count, save, arm the
reminder interval and the staff alert and record both handles on the same
timer object. `reminderRepeat`: reschedule one period later and run
`sendReminder`. `recoveryReminder`: one-shot `sendReminder`. `staffAlert`:
one-shot `sendStaffAlert`. -/
def fireTask (s : BotState) (t : Task) : BotState :=
  match t.kind with
  | .pendingStart =>
      let s0 := { s with tasks := s.tasks.filter (fun u => u.tid != t.tid) }
      match findTicket s0.tickets t.chan with
      | none => s0
      | some tk =>
          let tk2 := { tk with timerStartTime := some t.fireAt, reminderCount := 0 }
          let rid := s0.nextTid
          let sid := s0.nextTid + 1
          { s0 with
            tickets := saveTicket s0.tickets tk2,
            tasks := s0.tasks ++
              [⟨rid, t.chan, .reminderRepeat, t.fireAt + REMINDER_INTERVAL⟩,
               ⟨sid, t.chan, .staffAlert, t.fireAt + STAFF_ALERT_TIME⟩],
            nextTid := sid + 1,
            timers := setTimer s0.timers t.chan ⟨some t.tid, some rid, some sid⟩ }
  | .reminderRepeat =>
      let s1 := { s with
        tasks := s.tasks.map (fun u =>
          if u.tid == t.tid then { u with fireAt := u.fireAt + REMINDER_INTERVAL } else u) }
      sendReminder s1 t.chan t.fireAt
  | .recoveryReminder =>
      sendReminder { s with tasks := s.tasks.filter (fun u => u.tid != t.tid) } t.chan t.fireAt
  | .staffAlert =>
      sendStaffAlert { s with tasks := s.tasks.filter (fun u => u.tid != t.tid) } t.chan t.fireAt

/-- Earliest due callback (fire time reached), first-registered on ties. -/
def pickDue (tasks : List Task) (now : Nat) : Option Task :=
  tasks.foldl
    (fun acc t =>
      if t.fireAt ≤ now then
        match acc with
        | none => some t
        | some u => if t.fireAt < u.fireAt then some t else acc
      else acc)
    none

/-- Advance the scheduler up to time `now`, firing due callbacks in
timestamp order, each at its own scheduled time. Fuel bounds the number of
firings. -/
def runTo : Nat → BotState → Nat → BotState
  | 0, s, _ => s
  | fuel + 1, s, now =>
      match pickDue s.tasks now with
      | none => s
      | some t => runTo fuel (fireTask s t) now

/-- A mentioned user in an intake-bot message, with the result of the guild
member fetch and the mentioned member's role / bot classification. -/
structure Mention where
  id : Nat
  memberFound : Bool
  isStaff : Bool
  isBot : Bool
deriving Repr, DecidableEq

/-- An inbound chat message as the handler observes it: whether it is in a
guild and under the ticket category, the author's id, bot flag and
staff-role classification, and its user mentions in order. -/
structure Msg where
  authorId : Nat
  authorIsBot : Bool
  isStaff : Bool
  chan : Nat
  inGuild : Bool
  inCategory : Bool
  mentions : List Mention
deriving Repr, DecidableEq

/-- Creator scan over an intake-bot message's mentions: pick the first
mentioned user whose member fetch succeeded and who is neither
staff-privileged nor a bot; fetch failures and ineligible users are
skipped. -/
def firstEligibleMention : List Mention → Option Nat
  | [] => none
  | m :: ms =>
      if m.memberFound && !m.isStaff && !m.isBot then some m.id
      else firstEligibleMention ms

/-- Source `messageCreate` handler. Guards: ignore messages outside a
guild, messages from any bot other than the intake bot, and channels
outside the ticket category. If no record exists, qualify the creator
(intake-bot mention scan, or a non-staff human author) and create the
record. Otherwise a non-staff message from the creator cancels all timers
and clears the record, and a staff message cancels all timers and re-arms
the pre-delay. -/
def messageCreate (s : BotState) (m : Msg) (now : Nat) : BotState :=
  if !m.inGuild then s
  else if m.authorIsBot && m.authorId != TICKET_TOOL_BOT_ID then s
  else if !m.inCategory then s
  else
    match findTicket s.tickets m.chan with
    | none =>
        let creator :=
          if m.authorId == TICKET_TOOL_BOT_ID then firstEligibleMention m.mentions
          else if !m.isStaff && !m.authorIsBot then some m.authorId
          else none
        match creator with
        | some c => { s with tickets := s.tickets ++ [⟨m.chan, c, none, 0⟩] }
        | none => s
    | some tk =>
        if !m.isStaff && m.authorId == tk.creatorId then
          let s1 := clearAllTimers s m.chan
          { s1 with
            tickets := saveTicket s1.tickets
              { tk with timerStartTime := none, reminderCount := 0 } }
        else if m.isStaff then
          startTimers (clearAllTimers s m.chan) m.chan now
        else s

/-- JavaScript truthiness of the stored `timerStartTime`: a missing value
and the number 0 are both falsy. -/
def isActive : Option Nat → Bool
  | none => false
  | some t => t != 0

/-- Startup recovery of a single persisted record (body of the loop in the
ready handler). For a truthy `timerStartTime` in an existing channel: if
less than 24 hours elapsed, arm the reminder interval (one full period from
now), fire a reminder immediately when the next one is at most 1 second
away or else arm an anonymous one-shot for it (this one-shot handle is not
recorded on the timer object), arm the staff alert for the remaining time,
and store the timer object; if 24 hours or more elapsed, send the staff
alert immediately and change nothing else. A record whose channel no
longer exists is deleted. -/
def recoverTicket (s : BotState) (tk : Ticket) (now : Nat)
    (chanExists : Nat → Bool) : BotState :=
  if isActive tk.timerStartTime then
    let t0 := tk.timerStartTime.getD 0
    if chanExists tk.channelId then
      let elapsed := now - t0
      if elapsed < STAFF_ALERT_TIME then
        let remaining := STAFF_ALERT_TIME - elapsed
        let ttnr := REMINDER_INTERVAL - elapsed % REMINDER_INTERVAL
        let rid := s.nextTid
        let s1 := { s with
          tasks := s.tasks ++ [(⟨rid, tk.channelId, .reminderRepeat, now + REMINDER_INTERVAL⟩ : Task)],
          nextTid := rid + 1 }
        let s2 :=
          if ttnr ≤ 1000 then sendReminder s1 tk.channelId now
          else { s1 with
            tasks := s1.tasks ++ [(⟨s1.nextTid, tk.channelId, .recoveryReminder, now + ttnr⟩ : Task)],
            nextTid := s1.nextTid + 1 }
        let sid := s2.nextTid
        let s3 := { s2 with
          tasks := s2.tasks ++ [(⟨sid, tk.channelId, .staffAlert, now + remaining⟩ : Task)],
          nextTid := sid + 1 }
        { s3 with timers := setTimer s3.timers tk.channelId ⟨none, some rid, some sid⟩ }
      else sendStaffAlert s tk.channelId now
    else { s with tickets := s.tickets.filter (fun u => u.channelId != tk.channelId) }
  else s

/-- Source ready-event recovery loop: iterate over the snapshot of all
persisted records and reconcile each one. -/
def clientReady (s : BotState) (now : Nat) (chanExists : Nat → Bool) : BotState :=
  s.tickets.foldl (fun acc tk => recoverTicket acc tk now chanExists) s

/-- Distinct outcomes reported to the invoker of a slash command. -/
inductive Reply
  | noActiveTimer
  | timerStopped
  | noTicketData
  | timerRestarted
  | mustProvideUser
  | creatorAssigned
deriving Repr, DecidableEq

/-- Source `/timer stop` case: refuse (distinct reply, no state change)
when there is no record or the stored `timerStartTime` is falsy; otherwise
clear all timers, null the start time, zero the count and save. -/
def timerStop (s : BotState) (cid : Nat) : BotState × Reply :=
  match findTicket s.tickets cid with
  | none => (s, .noActiveTimer)
  | some tk =>
      if !(isActive tk.timerStartTime) then (s, .noActiveTimer)
      else
        let s1 := clearAllTimers s cid
        ({ s1 with
            tickets := saveTicket s1.tickets
              { tk with timerStartTime := none, reminderCount := 0 } },
         .timerStopped)

/-- Source `/timer restart` case: refuse when no record exists; otherwise
clear all timers, set `timerStartTime` to now with no pre-delay, zero the
count, save, arm the reminder interval (first firing one full period
later) and the staff alert at the full offset, and store both handles. No
reminder is sent. -/
def timerRestart (s : BotState) (cid : Nat) (now : Nat) : BotState × Reply :=
  match findTicket s.tickets cid with
  | none => (s, .noTicketData)
  | some tk =>
      let s1 := clearAllTimers s cid
      let s2 := { s1 with
        tickets := saveTicket s1.tickets
          { tk with timerStartTime := some now, reminderCount := 0 } }
      let rid := s2.nextTid
      let sid := rid + 1
      ({ s2 with
          tasks := s2.tasks ++
            [(⟨rid, cid, .reminderRepeat, now + REMINDER_INTERVAL⟩ : Task),
             (⟨sid, cid, .staffAlert, now + STAFF_ALERT_TIME⟩ : Task)],
          nextTid := sid + 1,
          timers := setTimer s2.timers cid ⟨none, some rid, some sid⟩ },
       .timerRestarted)

/-- Source `/creator assign` case: refuse when no user option was given;
create the record with a null start time and zero count when absent,
otherwise overwrite `creatorId` and save. Timers are never touched. -/
def creatorAssign (s : BotState) (cid : Nat) (user : Option Nat) : BotState × Reply :=
  match user with
  | none => (s, .mustProvideUser)
  | some uid =>
      match findTicket s.tickets cid with
      | none =>
          ({ s with tickets := s.tickets ++ [⟨cid, uid, none, 0⟩] }, .creatorAssigned)
      | some tk =>
          ({ s with tickets := saveTicket s.tickets { tk with creatorId := uid } },
           .creatorAssigned)

/-- Source `channelDelete` handler: when a record exists for the deleted
channel, clear all timers and delete the record. -/
def channelDelete (s : BotState) (cid : Nat) : BotState :=
  match findTicket s.tickets cid with
  | none => s
  | some _ =>
      let s1 := clearAllTimers s cid
      { s1 with tickets := s1.tickets.filter (fun u => u.channelId != cid) }

/-- Times of the reminder messages in a send log, in send order. -/
def reminderTimes (l : List Sent) : List Nat :=
  (l.filter (fun e => match e.kind with | .reminder _ _ => true | .alert => false)).map
    (fun e => e.time)

/-- Number of staff alerts for a channel in a send log. -/
def alertCount (l : List Sent) (cid : Nat) : Nat :=
  (l.filter (fun e => e.chan == cid && e.kind == SentKind.alert)).length

/-- Boolean form of the record invariant: a positive reminder count
requires a non-null start time. -/
def countImpliesStarted (tk : Ticket) : Bool :=
  tk.reminderCount == 0 || tk.timerStartTime.isSome

/-- A staff-authored human message in the given channel. -/
def staffMsg (cid uid : Nat) : Msg := ⟨uid, false, true, cid, true, true, []⟩

/-- A non-staff human message in the given channel. -/
def userMsg (cid uid : Nat) : Msg := ⟨uid, false, false, cid, true, true, []⟩

/-- Persisted record as left behind by a crash right after activation at
time 21600000: channel 1, creator 42, no reminders sent yet. -/
def recordAfterCrash : Ticket := ⟨1, 42, some 21600000, 0⟩

/-- State reconciled by the ready handler at time 32400000, which is three
hours into the six-hour reminder interval of the persisted record. -/
def recoveredState : BotState :=
  clientReady ⟨[recordAfterCrash], [], [], 0, []⟩ 32400000 (fun _ => true)

/-- The same deployment had it never crashed: the staff message that armed
the pre-delay arrived at 21000000, so the countdown became active at
21600000, exactly the epoch persisted in `recordAfterCrash`. -/
def continuousStart : BotState :=
  messageCreate ⟨[⟨1, 42, none, 0⟩], [], [], 0, []⟩ (staffMsg 1 7) 21000000

/-- Record whose 24-hour alert window expired entirely during downtime. -/
def expiredRecord : Ticket := ⟨1, 42, some 1000, 0⟩

/-- Recovery of `expiredRecord` at one millisecond past its 24-hour mark. -/
def restartedOnce : BotState :=
  clientReady ⟨[expiredRecord], [], [], 0, []⟩ 86401000 (fun _ => true)

/-- A second process restart one hour later, recovering the same record. -/
def restartedTwice : BotState :=
  clientReady restartedOnce 90001000 (fun _ => true)

/-- State reached when the recovered process sees the creator's reply at
33000000 and the anonymous recovery one-shot still fires at 43200000. -/
def afterReplyThenOrphan : BotState :=
  runTo 20 (messageCreate (runTo 20 recoveredState 33000000) (userMsg 1 42) 33000000) 43200000

/-- Result of calling `clearAllTimers` on the recovered state. -/
def clearedAfterRecovery : BotState := clearAllTimers recoveredState 1

/-- A reachable `PendingStart` state: a staff message at time 0 in the
tracked, idle ticket of channel 1 (creator 9) arms the pre-delay one-shot. -/
def pendingState : BotState :=
  messageCreate ⟨[⟨1, 9, none, 0⟩], [], [], 0, []⟩ (staffMsg 1 7) 0

/-- C1: the startup reconciliation does not reproduce the uninterrupted
schedule. With `timerStartTime = 21600000` and a restart at `32400000`
(`k = 0`, `r = 3h`), the recovered process correctly fires the next
reminder at `reminderInterval - r` (at 43200000) but then fires again at
54000000 and reaches cumulative `reminderCount = 2`, because the interval
is armed at multiples of the period from the restart instant instead of
continuing from the aligned one-shot; the uninterrupted process has fired
only at 43200000 by then (`reminderCount = 1`, next due at 64800000). -/
theorem recovery_schedule_diverges :
    reminderTimes (runTo 20 recoveredState 54000000).sent = [43200000, 54000000] ∧
    (findTicket (runTo 20 recoveredState 54000000).tickets 1).map Ticket.reminderCount
      = some 2 ∧
    reminderTimes (runTo 20 continuousStart 54000000).sent = [43200000] ∧
    (findTicket (runTo 20 continuousStart 54000000).tickets 1).map Ticket.reminderCount
      = some 1 := by
  decide

/-- C2: the staff alert fires again for the same `timerStartTime` epoch
after a second restart. The expired-downtime recovery branch sends the
alert but neither clears `timerStartTime` nor records the firing, so a
process restarted at 86401000 alerts once and, restarted again at
90001000 with the identical persisted epoch 1000, alerts a second time. -/
theorem staff_alert_refires_per_epoch :
    alertCount restartedOnce.sent 1 = 1 ∧
    alertCount restartedTwice.sent 1 = 2 ∧
    findTicket restartedTwice.tickets 1 = some expiredRecord := by
  decide

/-- C3: the invariant `reminderCount > 0 implies timerStartTime is not
null` is broken after a requester-reply transition. Startup recovery at
elapsed 3h arms an anonymous one-shot reminder that is not recorded in the
timers map; the creator's reply at 33000000 clears the record and all
registered handles, but the orphan one-shot still fires at 43200000 and
increments `reminderCount` to 1 while `timerStartTime` stays null. -/
theorem invariant_broken_after_reply :
    findTicket afterReplyThenOrphan.tickets 1 = some ⟨1, 42, none, 1⟩ ∧
    (findTicket afterReplyThenOrphan.tickets 1).map countImpliesStarted = some false := by
  decide

/-- C4: `clearAllTimers` is idempotent and empties the registry entry, but
it does not leave zero live callbacks: the recovery one-shot reminder armed
at startup is never stored on the timer object, survives `clearAllTimers`,
and later fires and mutates the record (incrementing `reminderCount`). -/
theorem cancelAll_misses_recovery_oneshot :
    clearAllTimers clearedAfterRecovery 1 = clearedAfterRecovery ∧
    lookupTimer clearedAfterRecovery.timers 1 = none ∧
    clearedAfterRecovery.tasks = [⟨1, 1, .recoveryReminder, 43200000⟩] ∧
    (findTicket (runTo 5 clearedAfterRecovery 43200000).tickets 1).map Ticket.reminderCount
      = some 1 := by
  decide

theorem find_erase_none (ts : List (Nat × TimerObj)) (cid : Nat) :
    (eraseTimer ts cid).find? (fun p => p.1 == cid) = none := by
  induction ts with
  | nil => rfl
  | cons a ts ih =>
      by_cases h : a.1 = cid
      · simp [eraseTimer, List.filter_cons, h]
      · simp [eraseTimer, List.filter_cons, List.find?_cons, h]

theorem lookupTimer_erase (ts : List (Nat × TimerObj)) (cid : Nat) :
    lookupTimer (eraseTimer ts cid) cid = none := by
  simp [lookupTimer, find_erase_none]

theorem lookupTimer_set (ts : List (Nat × TimerObj)) (cid : Nat) (o : TimerObj) :
    lookupTimer (setTimer ts cid o) cid = some o := by
  simp [lookupTimer, setTimer, List.find?_cons]

theorem clearAllTimers_tickets (s : BotState) (cid : Nat) :
    (clearAllTimers s cid).tickets = s.tickets := by
  unfold clearAllTimers
  cases h : lookupTimer s.timers cid <;> rfl

theorem clearAllTimers_sent (s : BotState) (cid : Nat) :
    (clearAllTimers s cid).sent = s.sent := by
  unfold clearAllTimers
  cases h : lookupTimer s.timers cid <;> rfl

theorem clearAllTimers_nextTid (s : BotState) (cid : Nat) :
    (clearAllTimers s cid).nextTid = s.nextTid := by
  unfold clearAllTimers
  cases h : lookupTimer s.timers cid <;> rfl

theorem clearAllTimers_lookup (s : BotState) (cid : Nat) :
    lookupTimer (clearAllTimers s cid).timers cid = none := by
  unfold clearAllTimers
  cases h : lookupTimer s.timers cid with
  | none => exact h
  | some tm => exact lookupTimer_erase s.timers cid

theorem clearAllTimers_tasks_mem (s : BotState) (cid : Nat) (t : Task)
    (ht : t ∈ (clearAllTimers s cid).tasks) : t ∈ s.tasks := by
  unfold clearAllTimers at ht
  cases h : lookupTimer s.timers cid with
  | none => rw [h] at ht; exact ht
  | some tm =>
      rw [h] at ht
      exact (List.mem_filter.mp ht).1

theorem clearAllTimers_unregistered (s : BotState) (cid : Nat) (t : Task)
    (ht : t ∈ (clearAllTimers s cid).tasks) : registered s cid t.tid = false := by
  unfold registered
  cases h : lookupTimer s.timers cid with
  | none => rfl
  | some tm =>
      unfold clearAllTimers at ht
      rw [h] at ht
      have h2 := (List.mem_filter.mp ht).2
      simpa using h2

theorem findTicket_channelId (db : List Ticket) (cid : Nat) (tk : Ticket)
    (h : findTicket db cid = some tk) : tk.channelId = cid := by
  have := List.find?_some h
  simpa using this

theorem findTicket_saveTicket (db : List Ticket) (tk old : Ticket) (cid : Nat)
    (hcid : tk.channelId = cid)
    (h : findTicket db cid = some old) :
    findTicket (saveTicket db tk) cid = some tk := by
  induction db with
  | nil => simp [findTicket] at h
  | cons a db ih =>
      by_cases ha : a.channelId = cid
      · simp [findTicket, saveTicket, List.find?_cons, ha, hcid]
      · have h2 : findTicket db cid = some old := by
          simpa [findTicket, List.find?_cons, ha] using h
        have := ih h2
        simpa [findTicket, saveTicket, List.find?_cons, ha, hcid] using this

theorem mem_saveTicket (db : List Ticket) (tk u : Ticket)
    (h : u ∈ saveTicket db tk) : u = tk ∨ u ∈ db := by
  unfold saveTicket at h
  obtain ⟨v, hv, hvu⟩ := List.mem_map.mp h
  by_cases hc : v.channelId = tk.channelId
  · left; rw [← hvu]; simp [hc]
  · right; rw [← hvu]; simpa [hc] using hv

theorem startTimers_eq (s : BotState) (cid now : Nat) (tk : Ticket)
    (ht : findTicket s.tickets cid = some tk) :
    startTimers s cid now =
      { clearAllTimers s cid with
        tasks := (clearAllTimers s cid).tasks ++
          [⟨(clearAllTimers s cid).nextTid, cid, .pendingStart, now + START_DELAY⟩],
        nextTid := (clearAllTimers s cid).nextTid + 1,
        timers := setTimer (clearAllTimers s cid).timers cid
          ⟨some (clearAllTimers s cid).nextTid, none, none⟩ } := by
  unfold startTimers
  rw [ht]

theorem messageCreate_creator_eq (s : BotState) (m : Msg) (now : Nat) (tk : Ticket)
    (hg : m.inGuild = true) (hc : m.inCategory = true) (hb : m.authorIsBot = false)
    (hst : m.isStaff = false)
    (ht : findTicket s.tickets m.chan = some tk)
    (ha : m.authorId = tk.creatorId) :
    messageCreate s m now =
      { clearAllTimers s m.chan with
        tickets := saveTicket (clearAllTimers s m.chan).tickets
          { tk with timerStartTime := none, reminderCount := 0 } } := by
  simp [messageCreate, hg, hc, hb, ht, hst, ha]

theorem messageCreate_staff_eq (s : BotState) (m : Msg) (now : Nat) (tk : Ticket)
    (hg : m.inGuild = true) (hc : m.inCategory = true) (hb : m.authorIsBot = false)
    (hst : m.isStaff = true)
    (ht : findTicket s.tickets m.chan = some tk) :
    messageCreate s m now = startTimers (clearAllTimers s m.chan) m.chan now := by
  simp [messageCreate, hg, hc, hb, ht, hst]

/-- C6 counterexample: the claimed "zero live handles for every prior
state" fails in the reachable post-recovery state. The creator's reply at
33000000 clears and persists the record and empties the registry entry,
yet one live callback for the channel remains — the unregistered recovery
one-shot — and when it fires at 43200000 it mutates the supposedly idle
record to `reminderCount = 1`. -/
theorem reply_leaves_live_oneshot :
    (messageCreate recoveredState (userMsg 1 42) 33000000).tasks
      = [⟨1, 1, .recoveryReminder, 43200000⟩] ∧
    findTicket (messageCreate recoveredState (userMsg 1 42) 33000000).tickets 1
      = some ⟨1, 42, none, 0⟩ ∧
    findTicket
        (runTo 5 (messageCreate recoveredState (userMsg 1 42) 33000000) 43200000).tickets 1
      = some ⟨1, 42, none, 1⟩ := by
  decide

/-- C6 (amended): in a tracked ticket, a non-staff message whose author
equals `creatorId` cancels every registered handle, clears
`timerStartTime` and `reminderCount`, and persists the record, leaving the
ticket idle with an empty timer-registry entry; an unregistered recovery
one-shot is the only callback that can survive the reply. A staff-authored
message never takes that path even when the staff member is the creator —
it leaves the record untouched and re-arms the pre-delay one-shot instead. -/
theorem creator_reply_resets (s : BotState) (m : Msg) (now : Nat) (tk : Ticket)
    (hg : m.inGuild = true) (hc : m.inCategory = true) (hb : m.authorIsBot = false)
    (ht : findTicket s.tickets m.chan = some tk)
    (ha : m.authorId = tk.creatorId) :
    (m.isStaff = false →
      findTicket (messageCreate s m now).tickets m.chan
          = some { tk with timerStartTime := none, reminderCount := 0 } ∧
      lookupTimer (messageCreate s m now).timers m.chan = none ∧
      ∀ t ∈ (messageCreate s m now).tasks,
        t ∈ s.tasks ∧ registered s m.chan t.tid = false) ∧
    (m.isStaff = true →
      findTicket (messageCreate s m now).tickets m.chan = some tk ∧
      lookupTimer (messageCreate s m now).timers m.chan
          = some ⟨some s.nextTid, none, none⟩ ∧
      (⟨s.nextTid, m.chan, .pendingStart, now + START_DELAY⟩ : Task)
          ∈ (messageCreate s m now).tasks) := by
  constructor
  · intro hst
    rw [messageCreate_creator_eq s m now tk hg hc hb hst ht ha]
    refine ⟨?_, ?_, ?_⟩
    · show findTicket (saveTicket (clearAllTimers s m.chan).tickets _) m.chan = _
      rw [clearAllTimers_tickets]
      exact findTicket_saveTicket s.tickets _ tk m.chan
        (findTicket_channelId s.tickets m.chan tk ht) ht
    · exact clearAllTimers_lookup s m.chan
    · intro t htm
      exact ⟨clearAllTimers_tasks_mem s m.chan t htm,
             clearAllTimers_unregistered s m.chan t htm⟩
  · intro hst
    rw [messageCreate_staff_eq s m now tk hg hc hb hst ht]
    have ht2 : findTicket (clearAllTimers s m.chan).tickets m.chan = some tk := by
      rw [clearAllTimers_tickets]; exact ht
    rw [startTimers_eq (clearAllTimers s m.chan) m.chan now tk ht2]
    refine ⟨?_, ?_, ?_⟩
    · show findTicket (clearAllTimers (clearAllTimers s m.chan) m.chan).tickets m.chan = _
      rw [clearAllTimers_tickets, clearAllTimers_tickets]
      exact ht
    · show lookupTimer (setTimer _ m.chan _) m.chan = _
      rw [lookupTimer_set, clearAllTimers_nextTid, clearAllTimers_nextTid]
    · show _ ∈ (clearAllTimers (clearAllTimers s m.chan) m.chan).tasks ++ _
      rw [clearAllTimers_nextTid, clearAllTimers_nextTid]
      simp

theorem creator_reply_resets_witness :
    (recoveredState.tickets = [recordAfterCrash] ∧
      findTicket recoveredState.tickets 1 = some recordAfterCrash) ∧
    ((userMsg 1 42).isStaff = false →
      findTicket (messageCreate recoveredState (userMsg 1 42) 33000000).tickets 1
          = some { recordAfterCrash with timerStartTime := none, reminderCount := 0 } ∧
      lookupTimer (messageCreate recoveredState (userMsg 1 42) 33000000).timers 1 = none ∧
      ∀ t ∈ (messageCreate recoveredState (userMsg 1 42) 33000000).tasks,
        t ∈ recoveredState.tasks ∧ registered recoveredState 1 t.tid = false) ∧
    ((userMsg 1 42).isStaff = true →
      findTicket (messageCreate recoveredState (userMsg 1 42) 33000000).tickets 1
          = some recordAfterCrash ∧
      lookupTimer (messageCreate recoveredState (userMsg 1 42) 33000000).timers 1
          = some ⟨some recoveredState.nextTid, none, none⟩ ∧
      (⟨recoveredState.nextTid, 1, .pendingStart, 33000000 + START_DELAY⟩ : Task)
          ∈ (messageCreate recoveredState (userMsg 1 42) 33000000).tasks) :=
  ⟨by decide,
   creator_reply_resets recoveredState (userMsg 1 42) 33000000 recordAfterCrash
     rfl rfl rfl (by decide) rfl⟩

/-- C7 counterexample: in a reachable `PendingStart` state (record with
null `timerStartTime`, pre-delay one-shot armed by a staff message at time
0) the manual stop refuses with the distinct no-op reply and cancels
nothing; the pending one-shot then fires at 600000 and starts the timer —
so manual stop is not the claimed all-state cancellation. -/
theorem stop_omits_pendingStart :
    (timerStop pendingState 1).1 = pendingState ∧
    (timerStop pendingState 1).2 = Reply.noActiveTimer ∧
    pendingState.tasks = [⟨0, 1, .pendingStart, 600000⟩] ∧
    (findTicket (runTo 5 (timerStop pendingState 1).1 600000).tickets 1).map
        Ticket.timerStartTime = some (some 600000) := by
  decide

/-- C7 (amended): manual stop clears the record and cancels the registered
handles exactly when the stored `timerStartTime` is truthy (`Active` or
`Escalated`, or a stale epoch); when it is falsy — both `Idle` and a
`PendingStart` armed from idle — the command is an idempotent no-op
reported distinctly, and an armed pre-delay one-shot is NOT cancelled. -/
theorem timerStop_behavior (s : BotState) (cid : Nat) (tk : Ticket)
    (ht : findTicket s.tickets cid = some tk) :
    (isActive tk.timerStartTime = false → timerStop s cid = (s, Reply.noActiveTimer)) ∧
    (isActive tk.timerStartTime = true →
      (timerStop s cid).2 = Reply.timerStopped ∧
      findTicket (timerStop s cid).1.tickets cid
          = some { tk with timerStartTime := none, reminderCount := 0 } ∧
      lookupTimer (timerStop s cid).1.timers cid = none ∧
      ∀ t ∈ (timerStop s cid).1.tasks, t ∈ s.tasks ∧ registered s cid t.tid = false) := by
  constructor
  · intro hno
    unfold timerStop
    rw [ht]
    simp [hno]
  · intro hyes
    have heq : timerStop s cid =
        ({ clearAllTimers s cid with
            tickets := saveTicket (clearAllTimers s cid).tickets
              { tk with timerStartTime := none, reminderCount := 0 } },
         Reply.timerStopped) := by
      unfold timerStop
      rw [ht]
      simp [hyes]
    rw [heq]
    refine ⟨rfl, ?_, ?_, ?_⟩
    · show findTicket (saveTicket (clearAllTimers s cid).tickets _) cid = _
      rw [clearAllTimers_tickets]
      exact findTicket_saveTicket s.tickets _ tk cid
        (findTicket_channelId s.tickets cid tk ht) ht
    · exact clearAllTimers_lookup s cid
    · intro t htm
      exact ⟨clearAllTimers_tasks_mem s cid t htm, clearAllTimers_unregistered s cid t htm⟩

theorem timerStop_behavior_witness :
    (findTicket [⟨1, 42, some 5000, 2⟩] 1 = some ⟨1, 42, some 5000, 2⟩) ∧
    ((isActive (some 5000 : Option Nat) = false →
        timerStop ⟨[⟨1, 42, some 5000, 2⟩], [(1, ⟨none, some 0, some 1⟩)],
          [⟨0, 1, .reminderRepeat, 10000⟩, ⟨1, 1, .staffAlert, 90000⟩], 2, []⟩ 1
          = (⟨[⟨1, 42, some 5000, 2⟩], [(1, ⟨none, some 0, some 1⟩)],
              [⟨0, 1, .reminderRepeat, 10000⟩, ⟨1, 1, .staffAlert, 90000⟩], 2, []⟩,
             Reply.noActiveTimer)) ∧
      (isActive (some 5000 : Option Nat) = true →
        (timerStop ⟨[⟨1, 42, some 5000, 2⟩], [(1, ⟨none, some 0, some 1⟩)],
          [⟨0, 1, .reminderRepeat, 10000⟩, ⟨1, 1, .staffAlert, 90000⟩], 2, []⟩ 1).2
            = Reply.timerStopped ∧
        findTicket (timerStop ⟨[⟨1, 42, some 5000, 2⟩], [(1, ⟨none, some 0, some 1⟩)],
          [⟨0, 1, .reminderRepeat, 10000⟩, ⟨1, 1, .staffAlert, 90000⟩], 2, []⟩ 1).1.tickets 1
            = some ⟨1, 42, none, 0⟩ ∧
        lookupTimer (timerStop ⟨[⟨1, 42, some 5000, 2⟩], [(1, ⟨none, some 0, some 1⟩)],
          [⟨0, 1, .reminderRepeat, 10000⟩, ⟨1, 1, .staffAlert, 90000⟩], 2, []⟩ 1).1.timers 1
            = none ∧
        ∀ t ∈ (timerStop ⟨[⟨1, 42, some 5000, 2⟩], [(1, ⟨none, some 0, some 1⟩)],
          [⟨0, 1, .reminderRepeat, 10000⟩, ⟨1, 1, .staffAlert, 90000⟩], 2, []⟩ 1).1.tasks,
          t ∈ [(⟨0, 1, .reminderRepeat, 10000⟩ : Task), ⟨1, 1, .staffAlert, 90000⟩] ∧
          registered ⟨[⟨1, 42, some 5000, 2⟩], [(1, ⟨none, some 0, some 1⟩)],
            [⟨0, 1, .reminderRepeat, 10000⟩, ⟨1, 1, .staffAlert, 90000⟩], 2, []⟩ 1 t.tid
              = false)) :=
  ⟨by decide,
   timerStop_behavior ⟨[⟨1, 42, some 5000, 2⟩], [(1, ⟨none, some 0, some 1⟩)],
     [⟨0, 1, .reminderRepeat, 10000⟩, ⟨1, 1, .staffAlert, 90000⟩], 2, []⟩ 1
     ⟨1, 42, some 5000, 2⟩ (by decide)⟩

/-- C8 counterexample: the claimed "cancels all handles ... first firing
one full reminderInterval later" fails in the reachable post-recovery
state. A manual restart at 34000000 clears the registered handles and
resets the record to the fresh epoch, yet the unregistered recovery
one-shot remains live and fires at 43200000 — only 9200000 ms after the
restart, well inside the first full interval — sending a reminder and
incrementing the fresh epoch's count to 1. -/
theorem restart_leaves_live_oneshot :
    ((timerRestart recoveredState 1 34000000).1.tasks.filter (fun t => t.tid == 1))
      = [⟨1, 1, .recoveryReminder, 43200000⟩] ∧
    findTicket (timerRestart recoveredState 1 34000000).1.tickets 1
      = some ⟨1, 42, some 34000000, 0⟩ ∧
    reminderTimes (runTo 5 (timerRestart recoveredState 1 34000000).1 43200000).sent
      = [43200000] ∧
    findTicket (runTo 5 (timerRestart recoveredState 1 34000000).1 43200000).tickets 1
      = some ⟨1, 42, some 34000000, 1⟩ := by
  decide

/-- C8 (amended): manual restart on a ticket with a record cancels the
registered handles, sets `timerStartTime` to the current instant with no
pre-delay, resets `reminderCount` to 0, persists, arms the reminder
interval to fire one full period later and the staff alert at the full
offset, sends no reminder at the restart instant, and replies with the
restart confirmation; applied to any prior state, including `Escalated`,
the counters are reset. An unregistered recovery one-shot is not cancelled
and may still fire afterwards against the fresh epoch. -/
theorem timerRestart_spec (s : BotState) (cid now : Nat) (tk : Ticket)
    (ht : findTicket s.tickets cid = some tk) :
    (timerRestart s cid now).2 = Reply.timerRestarted ∧
    findTicket (timerRestart s cid now).1.tickets cid
        = some { tk with timerStartTime := some now, reminderCount := 0 } ∧
    lookupTimer (timerRestart s cid now).1.timers cid
        = some ⟨none, some s.nextTid, some (s.nextTid + 1)⟩ ∧
    (⟨s.nextTid, cid, .reminderRepeat, now + REMINDER_INTERVAL⟩ : Task)
        ∈ (timerRestart s cid now).1.tasks ∧
    (⟨s.nextTid + 1, cid, .staffAlert, now + STAFF_ALERT_TIME⟩ : Task)
        ∈ (timerRestart s cid now).1.tasks ∧
    (timerRestart s cid now).1.sent = s.sent ∧
    ∀ t ∈ (timerRestart s cid now).1.tasks,
      t.tid = s.nextTid ∨ t.tid = s.nextTid + 1 ∨
        (t ∈ s.tasks ∧ registered s cid t.tid = false) := by
  have heq : timerRestart s cid now =
      ({ clearAllTimers s cid with
          tickets := saveTicket (clearAllTimers s cid).tickets
            { tk with timerStartTime := some now, reminderCount := 0 },
          tasks := (clearAllTimers s cid).tasks ++
            [⟨(clearAllTimers s cid).nextTid, cid, .reminderRepeat, now + REMINDER_INTERVAL⟩,
             ⟨(clearAllTimers s cid).nextTid + 1, cid, .staffAlert, now + STAFF_ALERT_TIME⟩],
          nextTid := (clearAllTimers s cid).nextTid + 1 + 1,
          timers := setTimer (clearAllTimers s cid).timers cid
            ⟨none, some (clearAllTimers s cid).nextTid,
             some ((clearAllTimers s cid).nextTid + 1)⟩ },
       Reply.timerRestarted) := by
    unfold timerRestart
    rw [ht]
  rw [heq]
  refine ⟨rfl, ?_, ?_, ?_, ?_, ?_, ?_⟩
  · show findTicket (saveTicket (clearAllTimers s cid).tickets _) cid = _
    rw [clearAllTimers_tickets]
    exact findTicket_saveTicket s.tickets _ tk cid
      (findTicket_channelId s.tickets cid tk ht) ht
  · show lookupTimer (setTimer _ cid _) cid = _
    rw [lookupTimer_set, clearAllTimers_nextTid]
  · show _ ∈ (clearAllTimers s cid).tasks ++ _
    rw [clearAllTimers_nextTid]
    simp
  · show _ ∈ (clearAllTimers s cid).tasks ++ _
    rw [clearAllTimers_nextTid]
    simp
  · exact clearAllTimers_sent s cid
  · intro t htm
    rcases List.mem_append.mp htm with hL | hR
    · exact Or.inr (Or.inr ⟨clearAllTimers_tasks_mem s cid t hL,
        clearAllTimers_unregistered s cid t hL⟩)
    · rw [clearAllTimers_nextTid] at hR
      rcases List.mem_cons.mp hR with he | hR2
      · exact Or.inl (by rw [he])
      · rcases List.mem_cons.mp hR2 with he | habs
        · exact Or.inr (Or.inl (by rw [he]))
        · exact absurd habs (by simp)

theorem timerRestart_spec_witness :
    (findTicket restartedTwice.tickets 1 = some expiredRecord) ∧
    ((timerRestart restartedTwice 1 90002000).2 = Reply.timerRestarted ∧
      findTicket (timerRestart restartedTwice 1 90002000).1.tickets 1
          = some { expiredRecord with timerStartTime := some 90002000, reminderCount := 0 } ∧
      lookupTimer (timerRestart restartedTwice 1 90002000).1.timers 1
          = some ⟨none, some restartedTwice.nextTid, some (restartedTwice.nextTid + 1)⟩ ∧
      (⟨restartedTwice.nextTid, 1, .reminderRepeat, 90002000 + REMINDER_INTERVAL⟩ : Task)
          ∈ (timerRestart restartedTwice 1 90002000).1.tasks ∧
      (⟨restartedTwice.nextTid + 1, 1, .staffAlert, 90002000 + STAFF_ALERT_TIME⟩ : Task)
          ∈ (timerRestart restartedTwice 1 90002000).1.tasks ∧
      (timerRestart restartedTwice 1 90002000).1.sent = restartedTwice.sent ∧
      ∀ t ∈ (timerRestart restartedTwice 1 90002000).1.tasks,
        t.tid = restartedTwice.nextTid ∨ t.tid = restartedTwice.nextTid + 1 ∨
          (t ∈ restartedTwice.tasks ∧ registered restartedTwice 1 t.tid = false)) :=
  ⟨by decide, timerRestart_spec restartedTwice 1 90002000 expiredRecord (by decide)⟩

/-- C9: manual creator assignment upserts `creatorId` and changes nothing
else: when the record is absent it is created with null `timerStartTime`
and zero `reminderCount`; when present only `creatorId` is overwritten;
either way the scheduled callbacks, the timers map, the send log and the
id counter are untouched. -/
theorem creatorAssign_upsert (s : BotState) (cid uid : Nat) :
    (creatorAssign s cid (some uid)).1.tasks = s.tasks ∧
    (creatorAssign s cid (some uid)).1.timers = s.timers ∧
    (creatorAssign s cid (some uid)).1.sent = s.sent ∧
    (creatorAssign s cid (some uid)).1.nextTid = s.nextTid ∧
    (creatorAssign s cid (some uid)).2 = Reply.creatorAssigned ∧
    (∀ tk, findTicket s.tickets cid = some tk →
      findTicket (creatorAssign s cid (some uid)).1.tickets cid
          = some { tk with creatorId := uid } ∧
      ∀ u ∈ (creatorAssign s cid (some uid)).1.tickets,
        u = { tk with creatorId := uid } ∨ u ∈ s.tickets) ∧
    (findTicket s.tickets cid = none →
      (creatorAssign s cid (some uid)).1.tickets = s.tickets ++ [⟨cid, uid, none, 0⟩]) := by
  cases h : findTicket s.tickets cid with
  | none =>
      have heq : creatorAssign s cid (some uid) =
          ({ s with tickets := s.tickets ++ [⟨cid, uid, none, 0⟩] },
           Reply.creatorAssigned) := by
        unfold creatorAssign
        rw [h]
      rw [heq]
      refine ⟨rfl, rfl, rfl, rfl, rfl, ?_, fun _ => rfl⟩
      intro tk htk
      exact absurd htk (by simp)
  | some tk0 =>
      have heq : creatorAssign s cid (some uid) =
          ({ s with tickets := saveTicket s.tickets { tk0 with creatorId := uid } },
           Reply.creatorAssigned) := by
        unfold creatorAssign
        rw [h]
      rw [heq]
      refine ⟨rfl, rfl, rfl, rfl, rfl, ?_, ?_⟩
      · intro tk htk
        injection htk with he
        subst he
        constructor
        · exact findTicket_saveTicket s.tickets _ tk0 cid
            (findTicket_channelId s.tickets cid tk0 h) h
        · intro u hu
          rcases mem_saveTicket s.tickets _ u hu with he2 | hm
          · exact Or.inl he2
          · exact Or.inr hm
      · intro hn
        exact absurd hn (by simp)

theorem creatorAssign_upsert_witness :
    (creatorAssign pendingState 1 (some 55)).1.tasks = pendingState.tasks ∧
    (creatorAssign pendingState 1 (some 55)).1.timers = pendingState.timers ∧
    (creatorAssign pendingState 1 (some 55)).1.sent = pendingState.sent ∧
    (creatorAssign pendingState 1 (some 55)).1.nextTid = pendingState.nextTid ∧
    (creatorAssign pendingState 1 (some 55)).2 = Reply.creatorAssigned ∧
    (∀ tk, findTicket pendingState.tickets 1 = some tk →
      findTicket (creatorAssign pendingState 1 (some 55)).1.tickets 1
          = some { tk with creatorId := 55 } ∧
      ∀ u ∈ (creatorAssign pendingState 1 (some 55)).1.tickets,
        u = { tk with creatorId := 55 } ∨ u ∈ pendingState.tickets) ∧
    (findTicket pendingState.tickets 1 = none →
      (creatorAssign pendingState 1 (some 55)).1.tickets
        = pendingState.tickets ++ [⟨1, 55, none, 0⟩]) :=
  creatorAssign_upsert pendingState 1 55

/-- C10: a message authored by any bot other than the designated intake
bot is ignored entirely: the handler returns before touching any state, so
no record is created or modified, no timer handle is started, reset, or
cancelled, and nothing is sent — even if the bot's id had been manually
assigned as a ticket's `creatorId`. -/
theorem foreign_bot_ignored (s : BotState) (m : Msg) (now : Nat)
    (hb : m.authorIsBot = true) (hid : m.authorId ≠ TICKET_TOOL_BOT_ID) :
    messageCreate s m now = s := by
  unfold messageCreate
  cases hg : m.inGuild
  · simp
  · simp [hb, hid]

theorem foreign_bot_ignored_witness :
    ((⟨998, true, false, 1, true, true, []⟩ : Msg).authorIsBot = true ∧
      (⟨998, true, false, 1, true, true, []⟩ : Msg).authorId ≠ TICKET_TOOL_BOT_ID) ∧
    messageCreate ⟨[⟨1, 998, some 5, 1⟩], [], [], 0, []⟩ ⟨998, true, false, 1, true, true, []⟩ 0
      = ⟨[⟨1, 998, some 5, 1⟩], [], [], 0, []⟩ :=
  ⟨⟨rfl, by decide⟩,
   foreign_bot_ignored ⟨[⟨1, 998, some 5, 1⟩], [], [], 0, []⟩
     ⟨998, true, false, 1, true, true, []⟩ 0 rfl (by decide)⟩

end TicketBot
